import Mathlib

/-!
# Verification of the prisma-engines datasource loader and engine lifecycle

A shallow embedding of `libs/datamodel/core/src/transform/ast_to_dml/datasource_loader.rs`
and `query-engine/query-engine-napi/src/engine.rs`, with the helper layers that are
declared elsewhere in the repository (argument accessor, value resolver, diagnostics,
builtin provider descriptors) modelled from the specification.
-/

namespace Prisma

/-- A byte-offset range into the original schema text, used for diagnostics. -/
structure Span where
  startPos : Nat
  endPos : Nat
  deriving DecidableEq, Repr

def Span.empty : Span := ⟨0, 0⟩

/-- Modelled from the spec: a scalar raw value in a configuration block — a string
literal, an environment-variable indirection `env("NAME")`, or a non-string-shaped
literal (numeric or boolean). The parser producing these is out of scope. -/
inductive ScalarValue where
  | strV (s : String)
  | envV (name : String)
  | numV (n : Int)
  | boolV (b : Bool)
  deriving DecidableEq, Repr

/-- Modelled from the spec: a raw property value — a scalar or an array of scalars. -/
inductive Value where
  | scalar (v : ScalarValue)
  | array (vs : List ScalarValue)
  deriving DecidableEq, Repr

/-- Kind name used in value-type-mismatch error messages. -/
def ScalarValue.kindName : ScalarValue → String
  | .strV _ => "String"
  | .envV _ => "functional"
  | .numV _ => "numeric"
  | .boolV _ => "boolean"

/-- One named property of a configuration block, with its source span. -/
structure Property where
  name : String
  value : Value
  span : Span
  deriving DecidableEq, Repr

/-- A `datasource` configuration block from the AST. -/
structure SourceConfig where
  name : String
  properties : List Property
  span : Span
  documentation : Option String
  deriving DecidableEq, Repr

/-- The schema AST, restricted to its datasource blocks (`ast_schema.sources()`). -/
structure SchemaAst where
  sources : List SourceConfig
  deriving DecidableEq, Repr

/-- The process environment, mapping environment-variable names to values. -/
def Env := List (String × String)

/-- Errors of the datamodel validation pass, mirroring the `DatamodelError`
constructor functions used by the loader. -/
inductive DatamodelError where
  | argumentNotFound (argument_name : String) (span : Span)
  | sourceArgumentNotFound (argument_name : String) (source_name : String) (span : Span)
  | functionalEvaluationError (message : String) (span : Span)
  | sourceValidationError (message : String) (source_name : String) (span : Span)
  | datasourceProviderNotKnown (provider : String) (span : Span)
  | typeMismatch (description : String) (span : Span)
  | connectorError (message : String) (span : Span)
  deriving DecidableEq, Repr

/-- The human-readable description of an error (`err.description()`). -/
def DatamodelError.description : DatamodelError → String
  | .argumentNotFound n _ => "Argument \"" ++ n ++ "\" is missing."
  | .sourceArgumentNotFound n s _ => "Argument \"" ++ n ++ "\" is missing in data source block \"" ++ s ++ "\"."
  | .functionalEvaluationError m _ => m
  | .sourceValidationError m _ _ => m
  | .datasourceProviderNotKnown p _ => "Datasource provider not known: \"" ++ p ++ "\"."
  | .typeMismatch d _ => d
  | .connectorError m _ => m

/-- Warnings of the validation pass. -/
inductive DatamodelWarning where
  | deprecatedProviderArray (span : Span)
  deriving DecidableEq, Repr

/-- Modelled from the spec: the Diagnostics Collector — two ordered sequences of
errors and warnings, merged associatively and order-preservingly. -/
structure Diagnostics where
  errors : List DatamodelError
  warnings : List DatamodelWarning
  deriving DecidableEq, Repr

def Diagnostics.new : Diagnostics := ⟨[], []⟩

def Diagnostics.push_error (d : Diagnostics) (e : DatamodelError) : Diagnostics :=
  { d with errors := d.errors ++ [e] }

def Diagnostics.push_warning (d : Diagnostics) (w : DatamodelWarning) : Diagnostics :=
  { d with warnings := d.warnings ++ [w] }

/-- Merging (`merge_error`): append the error and return the collector (used on early-return
error paths, so the `Err` payload carries everything collected so far). -/
def Diagnostics.merge_error (d : Diagnostics) (e : DatamodelError) : Diagnostics :=
  d.push_error e

def Diagnostics.append_warning_vec (d : Diagnostics) (ws : List DatamodelWarning) : Diagnostics :=
  { d with warnings := d.warnings ++ ws }

def Diagnostics.has_errors (d : Diagnostics) : Bool :=
  !d.errors.isEmpty

/-- The `From<DatamodelError> for Diagnostics` conversion used by the `?` operator:
a fresh collector holding the single error. -/
def Diagnostics.ofError (e : DatamodelError) : Diagnostics :=
  Diagnostics.new.push_error e

/-- A string value together with the environment variable it came from, if any. -/
structure StringFromEnvVar where
  from_env_var : Option String
  value : String
  deriving DecidableEq, Repr

/-- Modelled from the spec: the Value Resolver — one raw value bound to its span. -/
structure ValueValidator where
  value : Value
  span : Span
  deriving DecidableEq, Repr

/-- Modelled from the spec: `is_from_env` — whether the value is an
environment-variable indirection. -/
def ValueValidator.is_from_env (v : ValueValidator) : Bool :=
  match v.value with
  | .scalar (.envV _) => true
  | _ => false

/-- Modelled from the spec: `is_array` — whether the value used array syntax. -/
def ValueValidator.is_array (v : ValueValidator) : Bool :=
  match v.value with
  | .array _ => true
  | _ => false

/-- Modelled from the spec: `as_array` — the element list of an array value, or the
single value itself wrapped in a one-element list. -/
def ValueValidator.as_array (v : ValueValidator) : List ScalarValue :=
  match v.value with
  | .array vs => vs
  | .scalar s => [s]

/-- Modelled from the spec: `as_str_from_env` — a direct string literal gives
`(none, literal)`; an indirection through environment variable `n` gives
`(some n, resolved-value-or-empty-string)`; any other value kind is a type error. -/
def as_str_from_env (env : Env) (v : ValueValidator) : Except DatamodelError (Option String × String) :=
  match v.value with
  | .scalar (.strV s) => .ok (none, s)
  | .scalar (.envV n) => .ok (some n, ((List.lookup n env).getD ""))
  | .scalar sv => .error (.typeMismatch ("Expected a String value, but received " ++ sv.kindName ++ " value.") v.span)
  | .array _ => .error (.typeMismatch "Expected a String value, but received array value." v.span)

/-- Modelled from the spec: `to_str_vec` on an element list — every element must be a
string literal; any other kind is a type error at the argument's span. -/
def str_vec_of (elems : List ScalarValue) (span : Span) : Except DatamodelError (List String) :=
  match elems with
  | [] => .ok []
  | .strV s :: rest =>
    match str_vec_of rest span with
    | .ok ss => .ok (s :: ss)
    | .error e => .error e
  | sv :: _ => .error (.typeMismatch ("Expected a String value, but received " ++ sv.kindName ++ " value.") span)

/-- Modelled from the spec: the Argument Accessor's required-argument lookup —
the property of that name, or `ArgumentNotFound {name, span-of-block}`. -/
def Arguments.arg (props : List Property) (block_span : Span) (name : String) :
    Except DatamodelError ValueValidator :=
  match props.find? (fun p => p.name == name) with
  | some p => .ok ⟨p.value, p.span⟩
  | none => .error (.argumentNotFound name block_span)

/-- Modelled from the spec: the Argument Accessor's optional-argument lookup —
absent means `none`, never an error. -/
def Arguments.optional_arg (props : List Property) (name : String) : Option ValueValidator :=
  (props.find? (fun p => p.name == name)).map (fun p => ⟨p.value, p.span⟩)

/-- The fixed set of builtin provider descriptors (MySQL, PostgreSQL, SQLite,
SQL Server), as a closed enumeration. -/
inductive ProviderKind where
  | mysql
  | postgresql
  | sqlite
  | mssql
  deriving DecidableEq, Repr

/-- Modelled from the spec: does this name identify this provider descriptor
(a descriptor may recognize several alias names). -/
def is_provider (p : ProviderKind) (name : String) : Bool :=
  match p with
  | .mysql => name == "mysql"
  | .postgresql => name == "postgresql" || name == "postgres"
  | .sqlite => name == "sqlite"
  | .mssql => name == "sqlserver"

/-- The canonical provider name of a descriptor. -/
def canonical_name : ProviderKind → String
  | .mysql => "mysql"
  | .postgresql => "postgresql"
  | .sqlite => "sqlite"
  | .mssql => "sqlserver"

/-- Modelled from the spec: a descriptor's URL-shape check — the URL must carry a
scheme recognizable by the backend; on failure an error message is produced. -/
def url_schemes : ProviderKind → List String
  | .mysql => ["mysql://"]
  | .postgresql => ["postgresql://", "postgres://"]
  | .sqlite => ["file:", "sqlite:"]
  | .mssql => ["sqlserver://"]

/-- Rust `str::starts_with`, on the character lists. -/
def starts_with (s pre : String) : Bool :=
  pre.data.isPrefixOf s.data

/-- Modelled from the spec: `can_handle_url` — accept when the URL starts with one of
the backend's recognizable schemes, otherwise report the expected scheme. -/
def can_handle_url (p : ProviderKind) (_source_name : String) (url : String) : Except String Unit :=
  if (url_schemes p).any (fun s => starts_with url s) then .ok ()
  else .error ("the URL must start with the protocol " ++ ((url_schemes p).headD ""))

/-- A connector capability descriptor is identified by its provider kind
(its capability content is out of scope). -/
def connector (p : ProviderKind) : ProviderKind := p

/-- The ordered builtin registry (`get_builtin_datasource_providers`). -/
def get_builtin_datasource_providers : List ProviderKind :=
  [.mysql, .postgresql, .sqlite, .mssql]

/-- Lookup (`get_datasource_provider`): the first registry descriptor recognizing the name. -/
def get_datasource_provider (provider : String) : Option ProviderKind :=
  get_builtin_datasource_providers.find? (fun sd => is_provider sd provider)

/-- A validated, immutable datasource. -/
structure Datasource where
  name : String
  provider : List String
  active_provider : String
  url : StringFromEnvVar
  shadow_database_url : Option StringFromEnvVar
  documentation : Option String
  combined_connector : List ProviderKind
  active_connector : ProviderKind
  deriving DecidableEq, Repr

/-- A datasource together with the warnings its validation produced. -/
structure ValidatedDatasource where
  subject : Datasource
  warnings : List DatamodelWarning
  deriving DecidableEq, Repr

/-- All datasources of a schema together with the pass's warnings. -/
structure ValidatedDatasources where
  subject : List Datasource
  warnings : List DatamodelWarning
  deriving DecidableEq, Repr

def PREVIEW_FEATURES_KEY : String := "previewFeatures"
def PROVIDER_KEY : String := "provider"
def SHADOW_DATABASE_URL_KEY : String := "shadowDatabaseUrl"
def URL_KEY : String := "url"

/-- Validation (`validate_datasource_url`): a resolved URL must be non-empty; the error message
names the datasource and, when the value came from an environment variable, states
that the variable resolved to an empty string. -/
def validate_datasource_url (env_var_for_url : Option String) (url : String)
    (source_name : String) (url_arg : ValueValidator) : Except DatamodelError Unit :=
  if url ≠ "" then
    .ok ()
  else
    let suffix := match env_var_for_url with
      | some env_var_name => " The environment variable `" ++ env_var_name ++ "` resolved to an empty string."
      | none => ""
    let msg := "You must provide a nonempty URL for the datasource `" ++ source_name ++ "`." ++ suffix
    .error (.sourceValidationError msg source_name url_arg.span)

/-- The phrase `get_url` looks for to recognize a wrong-value-kind error. -/
def expectedStringPhrase : String := "Expected a String value, but received"

/-- Substring containment (`str::contains`), on the character lists. -/
def string_contains (haystack needle : String) : Bool :=
  decide (List.IsInfix needle.data haystack.data)

/-- Whitespace trimming (`str::trim`): drop whitespace characters from both ends. -/
def rust_trim (s : String) : String :=
  ⟨((s.data.dropWhile Char.isWhitespace).reverse.dropWhile Char.isWhitespace).reverse⟩

/-- The mode-selection step of `get_url` (the `match` over the raw resolution
result and the override entry): ignore-URLs mode first, then override mode, then
normal mode with trimming. -/
def resolve_url_value (env : Env) (url_arg : ValueValidator) (ignore_datasource_urls : Bool)
    (datasource_url_overrides : List (String × String)) (source_name : String)
    (diagnostics : Diagnostics) (providers : List String) :
    Except Diagnostics (Option String × String) :=
  let override_url := (datasource_url_overrides.find? (fun x => x.1 == source_name)).map (fun x => x.2)
  match as_str_from_env env url_arg with
  | .error err =>
    if ignore_datasource_urls && string_contains err.description expectedStringPhrase then
      .error (diagnostics.merge_error err)
    else if ignore_datasource_urls then
      .ok (none, (providers.headD "") ++ "://")
    else
      match override_url with
      | some url => .ok (none, url)
      | none => .error (diagnostics.merge_error err)
  | .ok (env_var, url) =>
    if ignore_datasource_urls then
      .ok (none, (providers.headD "") ++ "://")
    else
      match override_url with
      | some url => .ok (none, url)
      | none => .ok (env_var, rust_trim url)

/-- Resolution (`DatasourceLoader::get_url`): resolve the URL in one of the three modes
(ignore-URLs, override, normal), then enforce non-emptiness. Error payloads merge
into the diagnostics collected so far, as on the source's early-return paths. -/
def get_url (env : Env) (url_arg : ValueValidator) (ignore_datasource_urls : Bool)
    (datasource_url_overrides : List (String × String)) (source_name : String)
    (diagnostics : Diagnostics) (providers : List String) :
    Except Diagnostics StringFromEnvVar :=
  match resolve_url_value env url_arg ignore_datasource_urls datasource_url_overrides
      source_name diagnostics providers with
  | .error d => .error d
  | .ok (env_var_for_url, url) =>
    match validate_datasource_url env_var_for_url url source_name url_arg with
    | .error e => .error (diagnostics.merge_error e)
    | .ok _ => .ok ⟨env_var_for_url, url⟩

/-- Guardrail (`DatasourceLoader::preview_features_guardrail`): a datasource block must not
declare a non-empty `previewFeatures` list. -/
def preview_features_guardrail (props : List Property) (block_span : Span)
    (diagnostics : Diagnostics) : Except Diagnostics Unit :=
  match Arguments.arg props block_span PREVIEW_FEATURES_KEY with
  | .error _ => .ok ()
  | .ok x =>
    match str_vec_of x.as_array x.span with
    | .error e => .error (Diagnostics.ofError e)
    | .ok preview_features =>
      if preview_features.isEmpty then .ok ()
      else .error (diagnostics.merge_error (.connectorError "Preview features are only supported in the generator block. Please move this field to the generator block." x.span))

/-- The shadow-database-URL stage of `lift_datasource`: an absent argument is
accepted; a present one is resolved, its emptiness error (if any) merged into the
running diagnostics, and the resolved value kept regardless. -/
def shadow_stage (env : Env) (props : List Property) (source_name : String)
    (diagnostics : Diagnostics) : Except Diagnostics (Option StringFromEnvVar × Diagnostics) :=
  match Arguments.optional_arg props SHADOW_DATABASE_URL_KEY with
  | none => .ok (none, diagnostics)
  | some value =>
    match as_str_from_env env value with
    | .error e => .error (Diagnostics.ofError e)
    | .ok (env_var_name, url) =>
      let diagnostics :=
        match validate_datasource_url env_var_name url source_name value with
        | .error err => diagnostics.merge_error err
        | .ok _ => diagnostics
      .ok (some ⟨env_var_name, url⟩, diagnostics)

/-- Joining (`providers.join(",")`). -/
def join_comma : List String → String
  | [] => ""
  | [s] => s
  | s :: rest => s ++ "," ++ join_comma rest

/-- The URL-shape check run against one matched descriptor inside `lift_datasource`:
success keeps the provider, failure becomes a source-validation error at the url
argument's span. -/
def url_check (source_name urlv : String) (url_span : Span) (provider : ProviderKind) :
    Except DatamodelError ProviderKind :=
  match can_handle_url provider source_name urlv with
  | .ok _ => .ok provider
  | .error err_msg => .error (.sourceValidationError err_msg source_name url_span)

/-- The message of the multiple-datasources error. -/
def multipleDatasourcesMsg : String :=
  "You defined more than one datasource. This is not allowed yet because support for multiple databases has not been implemented yet."

/-- The diagnostics state after the provider argument is read: a deprecation
warning when the provider list used array syntax, nothing otherwise. -/
def provider_array_diag (provider_arg : ValueValidator) : Diagnostics :=
  if provider_arg.is_array then
    Diagnostics.new.push_warning (.deprecatedProviderArray provider_arg.span)
  else Diagnostics.new

/-- Lifting (`DatasourceLoader::lift_datasource`): turn one datasource block into a validated
Datasource or collected diagnostics. -/
def lift_datasource (env : Env) (ast_source : SourceConfig) (ignore_datasource_urls : Bool)
    (datasource_url_overrides : List (String × String)) :
    Except Diagnostics ValidatedDatasource :=
  let source_name := ast_source.name
  match Arguments.arg ast_source.properties ast_source.span PROVIDER_KEY with
  | .error e => .error (Diagnostics.ofError e)
  | .ok provider_arg =>
  if provider_arg.is_from_env then
    .error (Diagnostics.new.merge_error (.functionalEvaluationError
      "A datasource must not use the env() function in the provider argument." ast_source.span))
  else
  match str_vec_of provider_arg.as_array provider_arg.span with
  | .error e => .error (Diagnostics.ofError e)
  | .ok providers =>
  let diagnostics := provider_array_diag provider_arg
  if providers.isEmpty then
    .error (diagnostics.merge_error (.sourceValidationError
      "The provider argument in a datasource must not be empty" source_name provider_arg.span))
  else
  match Arguments.arg ast_source.properties ast_source.span URL_KEY with
  | .error e => .error (Diagnostics.ofError e)
  | .ok url_arg =>
  match get_url env url_arg ignore_datasource_urls datasource_url_overrides source_name diagnostics providers with
  | .error d => .error d
  | .ok url =>
  match shadow_stage env ast_source.properties source_name diagnostics with
  | .error d => .error d
  | .ok (shadow_database_url, diagnostics) =>
  match preview_features_guardrail ast_source.properties ast_source.span diagnostics with
  | .error d => .error d
  | .ok _ =>
  let documentation := ast_source.documentation
  let all_datasource_providers := providers.filterMap get_datasource_provider
  if all_datasource_providers.isEmpty then
    .error (diagnostics.merge_error (.datasourceProviderNotKnown
      (join_comma providers) provider_arg.span))
  else
  let validated_providers : List (Except DatamodelError ProviderKind) :=
    all_datasource_providers.map (url_check source_name url.value url_arg.span)
  let combined_connector := all_datasource_providers.map connector
  let part := validated_providers.partition (fun r => r.isOk)
  match part.1.head? with
  | some (.ok first_successful_provider) =>
    .ok { subject :=
            { name := source_name
              provider := providers
              active_provider := canonical_name first_successful_provider
              url := url
              shadow_database_url := shadow_database_url
              documentation := documentation
              combined_connector := combined_connector
              active_connector := connector first_successful_provider }
          warnings := diagnostics.warnings }
  | some (.error e) => .error (Diagnostics.ofError e)
  | none =>
    match part.2.head? with
    | some (.error e) => .error (diagnostics.merge_error e)
    | _ => .error diagnostics

/-- The per-block phase of `load_datasources_from_ast`: fold over the schema's
datasource blocks, collecting validated datasources and diagnostics, re-tagging
`ArgumentNotFound` errors with the owning block's name. -/
def per_block_step (env : Env) (ignore_datasource_urls : Bool)
    (datasource_url_overrides : List (String × String))
    (acc : List Datasource × Diagnostics) (src : SourceConfig) :
    List Datasource × Diagnostics :=
  match lift_datasource env src ignore_datasource_urls datasource_url_overrides with
  | .ok loaded_src =>
    (acc.1 ++ [loaded_src.subject], acc.2.append_warning_vec loaded_src.warnings)
  | .error err =>
    let d := err.errors.foldl (fun d e =>
      match e with
      | .argumentNotFound argument_name span =>
        d.push_error (.sourceArgumentNotFound argument_name src.name span)
      | e => d.push_error e) acc.2
    (acc.1, d.append_warning_vec err.warnings)

/-- The per-block pass over all blocks. -/
def per_block_pass (env : Env) (ast_schema : SchemaAst) (ignore_datasource_urls : Bool)
    (datasource_url_overrides : List (String × String)) :
    List Datasource × Diagnostics :=
  ast_schema.sources.foldl (per_block_step env ignore_datasource_urls datasource_url_overrides)
    ([], Diagnostics.new)

/-- Loading (`DatasourceLoader::load_datasources_from_ast`): validate every datasource block,
then apply the multiplicity rule, and fail if any error was collected. -/
def load_datasources_from_ast (env : Env) (ast_schema : SchemaAst)
    (ignore_datasource_urls : Bool) (datasource_url_overrides : List (String × String)) :
    Except Diagnostics ValidatedDatasources :=
  let res := per_block_pass env ast_schema ignore_datasource_urls datasource_url_overrides
  let sources := res.1
  let diagnostics := res.2
  let diagnostics :=
    if sources.length > 1 then
      ast_schema.sources.foldl (fun d src =>
        d.push_error (.sourceValidationError multipleDatasourcesMsg src.name src.span)) diagnostics
    else diagnostics
  if diagnostics.has_errors then
    .error diagnostics
  else
    .ok { subject := sources, warnings := diagnostics.warnings }

/-! ## The engine lifecycle (`query-engine-napi/src/engine.rs`) -/

/-- Errors surfaced by the engine lifecycle (`ApiError`). -/
inductive ApiError where
  | alreadyConnected
  | notConnected
  | configuration (message : String)
  | core (message : String)
  deriving DecidableEq, Repr

/-- The unconnected engine: validated datamodel and configuration (the
configuration is represented by its datasource list, the only part `connect`
reads). -/
structure EngineBuilder (DM DS : Type) where
  datamodel : DM
  datasources : List DS

/-- The connected engine: the built query schema and the executor handle. -/
structure ConnectedEngine (QS Ex : Type) where
  query_schema : QS
  executor : Ex

/-- The engine state: exactly one of `Builder` or `Connected`. -/
inductive Inner (DM DS QS Ex : Type) where
  | builder (b : EngineBuilder DM DS)
  | connected (e : ConnectedEngine QS Ex)

/-- Connection options (`ConnectParams`). -/
structure ConnectParams where
  enable_raw_queries : Bool

/-- The external collaborators `connect` dispatches to: the datamodel converter,
the executor loader, the liveness check, the internal-data-model builder and the
query-schema builder. They are out of scope and appear as opaque functions. -/
structure ConnectCollaborators (DM DS TPL IDM QS Ex : Type) where
  convert : DM → TPL
  load : DS → Except ApiError (String × Ex)
  get_connection : Ex → Except ApiError Unit
  build_internal : TPL → String → IDM
  schema_build : IDM → Bool → DS → QS

variable {DM DS TPL IDM QS Ex Body Resp : Type}

/-- Connecting (`QueryEngine::connect`): only legal from the builder state; loads an executor,
checks liveness, builds the query schema and swaps the state to `Connected`.
From the connected state it fails with `AlreadyConnected` and leaves the state
unchanged. Returns the call's result together with the engine state after the
call. -/
def connect (c : ConnectCollaborators DM DS TPL IDM QS Ex) (params : ConnectParams)
    (inner : Inner DM DS QS Ex) : Except ApiError Unit × Inner DM DS QS Ex :=
  match inner with
  | .builder b =>
    let template := c.convert b.datamodel
    match b.datasources.head? with
    | none => (.error (.configuration "No valid data source found"), .builder b)
    | some data_source =>
      match c.load data_source with
      | .error e => (.error e, .builder b)
      | .ok (db_name, executor) =>
        match c.get_connection executor with
        | .error e => (.error e, .builder b)
        | .ok _ =>
          let internal_data_model := c.build_internal template db_name
          let query_schema := c.schema_build internal_data_model params.enable_raw_queries data_source
          (.ok (), .connected ⟨query_schema, executor⟩)
  | .connected e => (.error .alreadyConnected, .connected e)

/-- Querying (`QueryEngine::query`): only legal from the connected state, where it hands the
executor and query schema to the query-dispatch collaborator `handle`; from the
builder state it fails with `NotConnected`. -/
def query (handle : Ex → QS → Body → Resp) (inner : Inner DM DS QS Ex) (body : Body) :
    Except ApiError Resp :=
  match inner with
  | .connected engine => .ok (handle engine.executor engine.query_schema body)
  | .builder _ => .error .notConnected

/-! ## Concrete schema fragments used as test inputs -/

def exSpan : Span := ⟨10, 20⟩

/-- A valid datasource block: `provider = "sqlite"`, `url = "file:dev.db"`. -/
def sqliteBlock (name : String) : SourceConfig :=
  { name := name
    properties := [⟨"provider", .scalar (.strV "sqlite"), exSpan⟩,
                   ⟨"url", .scalar (.strV "file:dev.db"), exSpan⟩]
    span := exSpan
    documentation := none }

/-- An invalid datasource block named `bad`: the `url` argument is missing. -/
def missingUrlBlock : SourceConfig :=
  { name := "bad"
    properties := [⟨"provider", .scalar (.strV "sqlite"), exSpan⟩]
    span := exSpan
    documentation := none }

/-- A block that is valid except that `shadowDatabaseUrl` is present and empty. -/
def shadowEmptyBlock : SourceConfig :=
  { name := "db"
    properties := [⟨"provider", .scalar (.strV "sqlite"), exSpan⟩,
                   ⟨"url", .scalar (.strV "file:dev.db"), exSpan⟩,
                   ⟨"shadowDatabaseUrl", .scalar (.strV ""), exSpan⟩]
    span := exSpan
    documentation := none }

/-- A block whose `provider` argument is an environment-variable indirection. -/
def envProviderBlock : SourceConfig :=
  { name := "db"
    properties := [⟨"provider", .scalar (.envV "PRV"), exSpan⟩,
                   ⟨"url", .scalar (.strV "mysql://host"), exSpan⟩]
    span := exSpan
    documentation := none }

/-- A block declaring two providers in array form; only the second one's URL-shape
check accepts the URL. -/
def multiProviderBlock : SourceConfig :=
  { name := "db"
    properties := [⟨"provider", .array [.strV "mysql", .strV "postgres"], exSpan⟩,
                   ⟨"url", .scalar (.strV "postgres://h"), exSpan⟩]
    span := exSpan
    documentation := none }

/-! ## Theorems -/

/-- C2: the claim says that a present-but-empty `shadowDatabaseUrl` makes validation
of the whole schema fail, the emptiness error being reported to the caller. The code
merges the emptiness error into the block-local diagnostics but the success path of
`lift_datasource` returns only the warnings, so with every other field valid the
schema loads successfully and the error is silently dropped. -/
theorem shadow_empty_url_error_dropped :
    load_datasources_from_ast [] ⟨[shadowEmptyBlock]⟩ false [] =
      .ok { subject := [{ name := "db"
                          provider := ["sqlite"]
                          active_provider := "sqlite"
                          url := ⟨none, "file:dev.db"⟩
                          shadow_database_url := some ⟨none, ""⟩
                          documentation := none
                          combined_connector := [.sqlite]
                          active_connector := .sqlite }]
            warnings := [] } := by
  rfl

/-- C3: counterexample. With two individually valid blocks `a`, `b` and one invalid
block `bad` (missing `url`), the multiplicity pass reports the
more-than-one-datasource error for every block of the schema, including `bad`,
which did not validate — contradicting "one multiplicity error per
successfully-validated block (and only for those blocks)". -/
theorem load_multiplicity_counterexample :
    load_datasources_from_ast [] ⟨[sqliteBlock "a", sqliteBlock "b", missingUrlBlock]⟩ false [] =
      .error { errors := [.sourceArgumentNotFound "url" "bad" exSpan,
                          .sourceValidationError multipleDatasourcesMsg "a" exSpan,
                          .sourceValidationError multipleDatasourcesMsg "b" exSpan,
                          .sourceValidationError multipleDatasourcesMsg "bad" exSpan]
               warnings := [] } ∧
    DatamodelError.sourceValidationError multipleDatasourcesMsg "bad" exSpan ∈
      [DatamodelError.sourceArgumentNotFound "url" "bad" exSpan,
       .sourceValidationError multipleDatasourcesMsg "a" exSpan,
       .sourceValidationError multipleDatasourcesMsg "b" exSpan,
       .sourceValidationError multipleDatasourcesMsg "bad" exSpan] := by
  refine ⟨by rfl, by decide⟩

/-- C4: calling `connect` on an already connected engine returns the
already-connected error and leaves the state unchanged; a `query` against the state
after the failed second `connect` still observes the query schema and executor
installed by the first successful connect, whatever the connection collaborators
would have done. -/
theorem connect_when_connected_preserves_state
    {DM DS TPL IDM QS Ex Body Resp : Type}
    (c : ConnectCollaborators DM DS TPL IDM QS Ex) (params : ConnectParams)
    (e : ConnectedEngine QS Ex) (handle : Ex → QS → Body → Resp) (body : Body) :
    connect c params (Inner.connected e) =
      (Except.error ApiError.alreadyConnected, (Inner.connected e : Inner DM DS QS Ex)) ∧
    query handle (connect c params (Inner.connected e)).2 body =
      Except.ok (handle e.executor e.query_schema body) :=
  ⟨rfl, rfl⟩

/-- C7: calling `query` on an engine still in the builder state returns the
not-connected error, and the query-dispatch collaborator is never invoked: the
result is the same whatever dispatch function is supplied. -/
theorem query_when_unconnected_never_dispatches
    {DM DS QS Ex Body Resp : Type} (handle : Ex → QS → Body → Resp)
    (b : EngineBuilder DM DS) (body : Body) :
    query handle (Inner.builder b) body = (Except.error ApiError.notConnected : Except ApiError Resp) ∧
    ∀ handle2 : Ex → QS → Body → Resp,
      query handle (Inner.builder b) body = query handle2 (Inner.builder b) body :=
  ⟨rfl, fun _ => rfl⟩

/-- C8: a datasource block whose `provider` argument uses environment-variable
indirection is rejected with the functional-evaluation error, before any URL
resolution, for every environment, every mode and every override list. -/
theorem lift_datasource_rejects_env_provider
    (env : Env) (src : SourceConfig) (ign : Bool) (ovr : List (String × String))
    (pv : ValueValidator)
    (hpv : Arguments.arg src.properties src.span PROVIDER_KEY = .ok pv)
    (hfe : pv.is_from_env = true) :
    lift_datasource env src ign ovr =
      .error (Diagnostics.new.merge_error (.functionalEvaluationError
        "A datasource must not use the env() function in the provider argument." src.span)) := by
  unfold lift_datasource
  rw [hpv]
  simp [hfe]

/-- Witness for C8 at a concrete block: `provider = env("PRV")` with a valid URL. -/
theorem lift_datasource_rejects_env_provider_witness :
    lift_datasource [] envProviderBlock false [] =
      .error (Diagnostics.new.merge_error (.functionalEvaluationError
        "A datasource must not use the env() function in the provider argument." exSpan)) :=
  lift_datasource_rejects_env_provider [] envProviderBlock false []
    ⟨.scalar (.envV "PRV"), exSpan⟩ rfl rfl

/-- C5: in every resolution mode, a URL that survives `get_url` is non-empty; and
the emptiness failure of `validate_datasource_url` carries the message naming the
datasource and, when the value came from an environment variable, naming that
variable and stating it resolved to an empty string. -/
theorem resolved_url_nonempty
    (env : Env) (url_arg : ValueValidator) (ign : Bool) (ovr : List (String × String))
    (source_name : String) (d : Diagnostics) (providers : List String)
    (s : StringFromEnvVar) (env_var : String) :
    (get_url env url_arg ign ovr source_name d providers = .ok s → s.value ≠ "") ∧
    validate_datasource_url (some env_var) "" source_name url_arg =
      .error (.sourceValidationError
        ("You must provide a nonempty URL for the datasource `" ++ source_name ++ "`." ++
          (" The environment variable `" ++ env_var ++ "` resolved to an empty string."))
        source_name url_arg.span) ∧
    validate_datasource_url none "" source_name url_arg =
      .error (.sourceValidationError
        ("You must provide a nonempty URL for the datasource `" ++ source_name ++ "`.")
        source_name url_arg.span) := by
  refine ⟨?_, by simp [validate_datasource_url], by simp [validate_datasource_url]⟩
  intro h
  unfold get_url at h
  cases hres : resolve_url_value env url_arg ign ovr source_name d providers with
  | error d2 => rw [hres] at h; exact absurd h (by simp)
  | ok pr =>
    obtain ⟨ev, url⟩ := pr
    rw [hres] at h
    dsimp only at h
    cases hval : validate_datasource_url ev url source_name url_arg with
    | error e => rw [hval] at h; exact absurd h (by simp)
    | ok u =>
      rw [hval] at h
      cases h
      unfold validate_datasource_url at hval
      split at hval
      · assumption
      · exact absurd hval (by simp)

/-- Witness for C5 at concrete inputs: a successfully resolved URL is non-empty, and
the concrete empty-URL failures carry the expected messages. -/
theorem resolved_url_nonempty_witness :
    (StringFromEnvVar.mk none "file:dev.db").value ≠ "" ∧
    validate_datasource_url (some "DB_URL") "" "db" ⟨.scalar (.strV ""), exSpan⟩ =
      .error (.sourceValidationError
        ("You must provide a nonempty URL for the datasource `db`." ++
          (" The environment variable `DB_URL` resolved to an empty string."))
        "db" exSpan) :=
  ⟨(resolved_url_nonempty [] ⟨.scalar (.strV "file:dev.db"), exSpan⟩ false [] "db"
      Diagnostics.new ["sqlite"] ⟨none, "file:dev.db"⟩ "DB_URL").1 rfl,
   (resolved_url_nonempty [] ⟨.scalar (.strV ""), exSpan⟩ false [] "db"
      Diagnostics.new ["sqlite"] ⟨none, ""⟩ "DB_URL").2.1⟩

/-- C6: in ignore-URLs mode `get_url` skips URL parsing and substitutes the
placeholder `"<first-declared-provider>://"` whatever the url value resolves to —
except that a wrong-value-kind error (recognized by its description) is still
returned, merged into the diagnostics collected so far. Overrides are ignored in
this mode. -/
theorem get_url_ignore_urls_mode
    (env : Env) (url_arg : ValueValidator) (ovr : List (String × String))
    (source_name : String) (d : Diagnostics) (p : String) (ps : List String) :
    get_url env url_arg true ovr source_name d (p :: ps) =
      (match as_str_from_env env url_arg with
       | .error err =>
         if string_contains err.description expectedStringPhrase then
           .error (d.merge_error err)
         else .ok ⟨none, p ++ "://"⟩
       | .ok _ => .ok ⟨none, p ++ "://"⟩) := by
  have hne : (p ++ "://") ≠ "" := by
    intro h
    have h2 := congrArg String.data h
    rw [String.data_append] at h2
    have h3 := List.append_eq_nil.mp h2
    exact absurd h3.2 (by decide)
  unfold get_url resolve_url_value
  cases h : as_str_from_env env url_arg with
  | error err =>
    by_cases hc : string_contains err.description expectedStringPhrase
    · simp [h, hc]
    · simp [h, hc, validate_datasource_url, hne]
  | ok v => simp [h, validate_datasource_url, hne]

lemma starts_with_whitespace_false {url pre : String} {c : Char} {cs : List Char}
    (hall : url.data.all Char.isWhitespace = true)
    (hpre : pre.data = c :: cs) (hc : c.isWhitespace = false) :
    starts_with url pre = false := by
  unfold starts_with
  rw [hpre]
  cases hd : url.data with
  | nil => rfl
  | cons d ds =>
    rw [hd] at hall
    have hdw : d.isWhitespace = true := by
      simp [List.all_cons] at hall
      exact hall.1
    have hne : (c == d) = false := by
      cases hcd : (c == d) with
      | false => rfl
      | true =>
        have hEq := eq_of_beq hcd
        rw [hEq, hdw] at hc
        exact absurd hc (by decide)
    show ((c == d) && List.isPrefixOf cs ds) = false
    rw [hne]
    rfl

lemma can_handle_url_whitespace_only (p : ProviderKind) (sn url : String)
    (hall : url.data.all Char.isWhitespace = true) :
    can_handle_url p sn url =
      .error ("the URL must start with the protocol " ++ ((url_schemes p).headD "")) := by
  cases p with
  | mysql =>
    have h1 : starts_with url "mysql://" = false := starts_with_whitespace_false hall rfl (by decide)
    simp [can_handle_url, url_schemes, h1]
  | postgresql =>
    have h1 : starts_with url "postgresql://" = false := starts_with_whitespace_false hall rfl (by decide)
    have h2 : starts_with url "postgres://" = false := starts_with_whitespace_false hall rfl (by decide)
    simp [can_handle_url, url_schemes, h1, h2]
  | sqlite =>
    have h1 : starts_with url "file:" = false := starts_with_whitespace_false hall rfl (by decide)
    have h2 : starts_with url "sqlite:" = false := starts_with_whitespace_false hall rfl (by decide)
    simp [can_handle_url, url_schemes, h1, h2]
  | mssql =>
    have h1 : starts_with url "sqlserver://" = false := starts_with_whitespace_false hall rfl (by decide)
    simp [can_handle_url, url_schemes, h1]

/-- C10: counterexample to the claim's conclusion. With the valid sqlite block and
the override URL `"   "`, the override is indeed taken verbatim and passes the
emptiness check in `get_url` — but `lift_datasource` then fails with the URL-shape
error and loading the schema fails, so no Datasource whose URL is the whitespace
string is ever yielded. -/
theorem override_whitespace_no_datasource :
    get_url [] ⟨.scalar (.strV "file:dev.db"), exSpan⟩ false [("db", "   ")] "db"
      Diagnostics.new ["sqlite"] = .ok ⟨none, "   "⟩ ∧
    lift_datasource [] (sqliteBlock "db") false [("db", "   ")] =
      .error ⟨[.sourceValidationError "the URL must start with the protocol file:" "db" exSpan],
              []⟩ ∧
    load_datasources_from_ast [] ⟨[sqliteBlock "db"]⟩ false [("db", "   ")] =
      .error ⟨[.sourceValidationError "the URL must start with the protocol file:" "db" exSpan],
              []⟩ :=
  ⟨rfl, rfl, rfl⟩

/-- C10 (amended): in normal (non-ignore) mode, a datasource whose name appears in
the override mapping takes the override URL verbatim — no trimming, no
environment-variable bookkeeping — so any non-empty override (a whitespace-only
string included) passes the emptiness check; but a whitespace-only URL still fails
every provider's URL-shape check afterwards, so the block errors out instead of
yielding a Datasource with that URL. -/
theorem get_url_override_taken_verbatim
    (env : Env) (url_arg : ValueValidator) (ovr : List (String × String))
    (source_name : String) (d : Diagnostics) (providers : List String)
    (matched_name w : String)
    (hfind : ovr.find? (fun x => x.1 == source_name) = some (matched_name, w))
    (hw : w ≠ "") :
    get_url env url_arg false ovr source_name d providers = .ok ⟨none, w⟩ ∧
    (w.data.all Char.isWhitespace = true →
      ∀ p sn, can_handle_url p sn w =
        .error ("the URL must start with the protocol " ++ ((url_schemes p).headD ""))) := by
  constructor
  · unfold get_url resolve_url_value
    rw [hfind]
    cases h : as_str_from_env env url_arg with
    | error err => simp [h, validate_datasource_url, hw]
    | ok v => simp [h, validate_datasource_url, hw]
  · intro hall p sn
    exact can_handle_url_whitespace_only p sn w hall

/-- Witness for C10: the whitespace-only override `"   "` is taken verbatim and
survives the emptiness check, yet fails the MySQL URL-shape check. -/
theorem get_url_override_taken_verbatim_witness :
    get_url [] ⟨.scalar (.strV "mysql://original"), exSpan⟩ false [("db", "   ")] "db"
      Diagnostics.new ["mysql"] = .ok ⟨none, "   "⟩ ∧
    can_handle_url .mysql "db" "   " = .error "the URL must start with the protocol mysql://" :=
  ⟨(get_url_override_taken_verbatim [] ⟨.scalar (.strV "mysql://original"), exSpan⟩
      [("db", "   ")] "db" Diagnostics.new ["mysql"] "db" "   " rfl (by decide)).1,
   (get_url_override_taken_verbatim [] ⟨.scalar (.strV "mysql://original"), exSpan⟩
      [("db", "   ")] "db" Diagnostics.new ["mysql"] "db" "   " rfl (by decide)).2
     (by decide) .mysql "db"⟩

/-- C9: validation keeps no state across calls — re-running
`load_datasources_from_ast` on the same AST with the same flags, overrides and
environment yields the identical result, errors and warnings included. -/
theorem load_datasources_rerun_identical (env : Env) (ast : SchemaAst) (ign : Bool)
    (ovr : List (String × String)) :
    load_datasources_from_ast env ast ign ovr = load_datasources_from_ast env ast ign ovr :=
  rfl

/-! ## Provider-selection lemmas (for the first-match analysis) -/

lemma isOk_url_check (sn u : String) (sp : Span) (q : ProviderKind) :
    (url_check sn u sp q).isOk = (can_handle_url q sn u).isOk := by
  unfold url_check
  cases can_handle_url q sn u <;> rfl

lemma head?_filter_eq_find? {α : Type} (p : α → Bool) (l : List α) :
    (l.filter p).head? = l.find? p := by
  induction l with
  | nil => rfl
  | cons a t ih =>
    by_cases h : p a
    · simp [List.filter_cons, h]
    · simp [List.filter_cons, h, ih]

lemma url_check_of_ok {sn u : String} {sp : Span} {p : ProviderKind}
    (h : can_handle_url p sn u = .ok ()) : url_check sn u sp p = .ok p := by
  unfold url_check
  rw [h]

lemma url_check_of_error {sn u msg : String} {sp : Span} {p : ProviderKind}
    (h : can_handle_url p sn u = .error msg) :
    url_check sn u sp p = .error (.sourceValidationError msg sn sp) := by
  unfold url_check
  rw [h]

lemma partition_fst_head {sn u : String} {sp : Span} {l : List ProviderKind} :
    ((l.map (url_check sn u sp)).partition (fun r => r.isOk)).1.head? =
      (l.find? (fun q => (can_handle_url q sn u).isOk)).map (url_check sn u sp) := by
  have hfun : ((fun r : Except DatamodelError ProviderKind => r.isOk) ∘ url_check sn u sp) =
      (fun q => (can_handle_url q sn u).isOk) := by
    funext q
    simp [Function.comp, isOk_url_check]
  rw [List.partition_eq_filter_filter]
  dsimp only
  rw [List.filter_map, List.head?_map, head?_filter_eq_find?, hfun]

lemma partition_snd_head {sn u : String} {sp : Span} {l : List ProviderKind} :
    ((l.map (url_check sn u sp)).partition (fun r => r.isOk)).2.head? =
      (l.find? (fun q => !(can_handle_url q sn u).isOk)).map (url_check sn u sp) := by
  have hfun : ((not ∘ fun r : Except DatamodelError ProviderKind => r.isOk) ∘ url_check sn u sp) =
      (fun q => !(can_handle_url q sn u).isOk) := by
    funext q
    simp [Function.comp, isOk_url_check]
  rw [List.partition_eq_filter_filter]
  dsimp only
  rw [List.filter_map, List.head?_map, head?_filter_eq_find?, hfun]

lemma partition_snd_head_first_fail {sn u : String} {sp : Span} {p0 : ProviderKind}
    {rest : List ProviderKind} (hfail : (can_handle_url p0 sn u).isOk = false) :
    (((p0 :: rest).map (url_check sn u sp)).partition (fun r => r.isOk)).2.head? =
      some (url_check sn u sp p0) := by
  rw [partition_snd_head]
  simp [List.find?_cons, hfail]

/-- C1: among the matched provider descriptors (in declaration order), the first
whose URL-shape check succeeds becomes the active provider — its canonical name and
its own connector land in the Datasource — and when none succeeds `lift_datasource`
fails with exactly the first URL-shape error, merged alone into the diagnostics. -/
theorem lift_datasource_first_provider_selection
    (env : Env) (src : SourceConfig) (ign : Bool) (ovr : List (String × String))
    (provider_arg url_arg : ValueValidator) (providers : List String)
    (url : StringFromEnvVar) (sdb : Option StringFromEnvVar) (d1 : Diagnostics)
    (p0 : ProviderKind) (rest : List ProviderKind)
    (hpv : Arguments.arg src.properties src.span PROVIDER_KEY = .ok provider_arg)
    (hne : provider_arg.is_from_env = false)
    (hvec : str_vec_of provider_arg.as_array provider_arg.span = .ok providers)
    (hpe : providers.isEmpty = false)
    (hua : Arguments.arg src.properties src.span URL_KEY = .ok url_arg)
    (hurl : get_url env url_arg ign ovr src.name (provider_array_diag provider_arg) providers = .ok url)
    (hsh : shadow_stage env src.properties src.name (provider_array_diag provider_arg) = .ok (sdb, d1))
    (hpf : preview_features_guardrail src.properties src.span d1 = .ok ())
    (hmatch : providers.filterMap get_datasource_provider = p0 :: rest) :
    (∀ p, (p0 :: rest).find? (fun q => (can_handle_url q src.name url.value).isOk) = some p →
      lift_datasource env src ign ovr = .ok
        { subject := { name := src.name
                       provider := providers
                       active_provider := canonical_name p
                       url := url
                       shadow_database_url := sdb
                       documentation := src.documentation
                       combined_connector := (p0 :: rest).map connector
                       active_connector := connector p }
          warnings := d1.warnings }) ∧
    (∀ msg, (p0 :: rest).find? (fun q => (can_handle_url q src.name url.value).isOk) = none →
      can_handle_url p0 src.name url.value = .error msg →
      lift_datasource env src ign ovr =
        .error (d1.merge_error (.sourceValidationError msg src.name url_arg.span))) := by
  unfold lift_datasource
  rw [hpv]
  simp only [hne, Bool.false_eq_true, if_false, hvec, hpe, hua, hurl, hsh, hpf, hmatch,
    List.isEmpty_cons]
  constructor
  · intro p hfind
    have hp := List.find?_some hfind
    have hok : can_handle_url p src.name url.value = .ok () := by
      cases hcan : can_handle_url p src.name url.value with
      | ok u => cases u; rfl
      | error m =>
        rw [hcan] at hp
        simp [Except.isOk, Except.toBool] at hp
    rw [partition_fst_head, hfind]
    simp only [Option.map_some', url_check_of_ok hok]
  · intro msg hfind hcheck
    have hfail : (can_handle_url p0 src.name url.value).isOk = false := by
      simp [hcheck, Except.isOk, Except.toBool]
    rw [partition_fst_head, hfind]
    simp only [Option.map_none']
    rw [partition_snd_head_first_fail hfail]
    simp only [url_check_of_error hcheck]

/-- Witness for C1: with providers `["mysql", "postgres"]` and a Postgres-shaped
URL, the first matched descriptor (MySQL) rejects the URL and the second
(PostgreSQL) becomes active, with its canonical name and connector. -/
theorem lift_datasource_first_provider_selection_witness :
    lift_datasource [] multiProviderBlock false [] = .ok
      { subject := { name := "db"
                     provider := ["mysql", "postgres"]
                     active_provider := "postgresql"
                     url := ⟨none, "postgres://h"⟩
                     shadow_database_url := none
                     documentation := none
                     combined_connector := [.mysql, .postgresql]
                     active_connector := .postgresql }
        warnings := [.deprecatedProviderArray exSpan] } :=
  (lift_datasource_first_provider_selection [] multiProviderBlock false []
    ⟨.array [.strV "mysql", .strV "postgres"], exSpan⟩ ⟨.scalar (.strV "postgres://h"), exSpan⟩
    ["mysql", "postgres"] ⟨none, "postgres://h"⟩ none
    (Diagnostics.new.push_warning (.deprecatedProviderArray exSpan))
    .mysql [.postgresql] rfl rfl rfl rfl rfl rfl rfl rfl rfl).1 .postgresql rfl


/-! ## Multiplicity-pass lemmas -/

lemma per_block_foldl_fst (env : Env) (ign : Bool) (ovr : List (String × String))
    (srcs : List SourceConfig) (acc : List Datasource × Diagnostics) :
    (srcs.foldl (per_block_step env ign ovr) acc).1 =
      acc.1 ++ srcs.filterMap
        (fun s => (lift_datasource env s ign ovr).toOption.map (fun v => v.subject)) := by
  induction srcs generalizing acc with
  | nil => simp
  | cons s t ih =>
    rw [List.foldl_cons, ih]
    cases h : lift_datasource env s ign ovr with
    | ok v => simp [per_block_step, h, Except.toOption, List.filterMap_cons]
    | error e => simp [per_block_step, h, Except.toOption, List.filterMap_cons]

lemma multi_error_foldl (srcs : List SourceConfig) (d : Diagnostics) :
    srcs.foldl (fun d src =>
        d.push_error (.sourceValidationError multipleDatasourcesMsg src.name src.span)) d =
      ⟨d.errors ++ srcs.map
        (fun s => .sourceValidationError multipleDatasourcesMsg s.name s.span), d.warnings⟩ := by
  induction srcs generalizing d with
  | nil => simp
  | cons s t ih =>
    rw [List.foldl_cons, ih]
    simp [Diagnostics.push_error]

/-- C3 (amended): when more than one datasource block individually validates, the
pass fails, and the multiplicity error is reported once for every datasource block
of the schema — the failed ones included — after the per-block errors. The first
conjunct identifies the successfully collected datasources with exactly the blocks
whose individual validation succeeded. -/
theorem load_datasources_multiplicity_all_blocks
    (env : Env) (ast : SchemaAst) (ign : Bool) (ovr : List (String × String))
    (h : 1 < (per_block_pass env ast ign ovr).1.length) :
    (per_block_pass env ast ign ovr).1 =
      ast.sources.filterMap
        (fun s => (lift_datasource env s ign ovr).toOption.map (fun v => v.subject)) ∧
    load_datasources_from_ast env ast ign ovr =
      .error ⟨(per_block_pass env ast ign ovr).2.errors ++
                ast.sources.map
                  (fun s => .sourceValidationError multipleDatasourcesMsg s.name s.span),
              (per_block_pass env ast ign ovr).2.warnings⟩ := by
  have hfst := per_block_foldl_fst env ign ovr ast.sources ([], Diagnostics.new)
  refine ⟨hfst, ?_⟩
  have hne_src : ast.sources ≠ [] := by
    intro hnil
    unfold per_block_pass at h
    rw [hnil] at h
    simp at h
  unfold load_datasources_from_ast
  dsimp only
  simp only [gt_iff_lt]
  rw [if_pos h, multi_error_foldl]
  have hcond : (Diagnostics.has_errors
      ⟨(per_block_pass env ast ign ovr).2.errors ++
        ast.sources.map (fun s => .sourceValidationError multipleDatasourcesMsg s.name s.span),
       (per_block_pass env ast ign ovr).2.warnings⟩) = true := by
    simp [Diagnostics.has_errors, List.isEmpty_iff, hne_src]
  rw [if_pos hcond]

/-- Witness for C3's amended claim: two individually valid blocks produce one
multiplicity error per block and an overall failure. -/
theorem load_datasources_multiplicity_all_blocks_witness :
    load_datasources_from_ast [] ⟨[sqliteBlock "a", sqliteBlock "b"]⟩ false [] =
      .error ⟨[.sourceValidationError multipleDatasourcesMsg "a" exSpan,
               .sourceValidationError multipleDatasourcesMsg "b" exSpan], []⟩ :=
  (load_datasources_multiplicity_all_blocks [] ⟨[sqliteBlock "a", sqliteBlock "b"]⟩ false []
    (by decide)).2

end Prisma
